import Mathlib

/-!
Verification development for the GARCH analysis service
(src/economic-monitor/services/garch/main.py).

The service's own computations — guard thresholds, the log-return
transform, parameter extraction, z-score / severity / Value-at-Risk
arithmetic, and the response envelopes of the four endpoints — are
embedded directly from the source.  Calls into external numerical
libraries (the arch package's maximum-likelihood fit, scipy's Student-t
quantile, numpy's log and sqrt) are modelled as explicit oracle
parameters, universally quantified in every theorem, so nothing proved
here depends on any particular library behaviour.  Floating-point
numbers are idealised as an arbitrary linear ordered field (instantiated
at ℚ for executable witnesses and at ℝ where the real logarithm is
needed).
-/

namespace Garch

variable {α : Type} [LinearOrderedField α]

/-- Errors raised inside the engine.  `insufficientReturns` is the
ValueError of `fit_garch_model` (main.py line 135), `insufficientHistory`
the ValueError of `detect_anomaly_with_garch` (line 258), and
`indexError` models Python's IndexError from `[-1]` / `[-2]` indexing of
an empty or too-short sequence. -/
inductive GarchError where
  | insufficientReturns (nReturns : Nat)
  | insufficientHistory
  | indexError
  deriving DecidableEq

/-- Human-readable message of each error, as produced by `str(e)` on the
exceptions the source raises (numeric interpolation of the count kept). -/
def errMsg : GarchError → String
  | .insufficientReturns n => "数据不足: 需要至少100个观测值，当前有" ++ toString n ++ "个"
  | .insufficientHistory => "需要至少100个历史数据点"
  | .indexError => "list index out of range"

/-- Both ValueError variants are insufficient-data failures in the spec's
taxonomy; the IndexError is not. -/
def GarchError.isInsufficientData : GarchError → Bool
  | .insufficientReturns _ => true
  | .insufficientHistory => true
  | .indexError => false

/-- A Python float that may be the literal `float("inf")` (used for the
half-life at main.py line 157). -/
inductive PyFloat (α : Type) where
  | fin (x : α)
  | inf
  deriving DecidableEq

/-- Oracle for the two numpy scalar functions the engine uses. -/
structure NumOracle (α : Type) where
  log : α → α
  sqrt : α → α

/-- Abstraction of the object returned by `arch_model(...).fit(disp="off")`:
a parameter table read with `.get(key, 0)`, the conditional-volatility
series, and the information criteria. -/
structure ArchResult (α : Type) where
  params : List (String × α)
  conditional_volatility : List α
  aic : α
  bic : α
  loglikelihood : α

/-- Embeds `result.params.get(key, 0)` (main.py lines 144-147). -/
def paramsGet (ps : List (String × α)) (key : String) : α :=
  (ps.lookup key).getD 0

/-- Embeds `100 * np.diff(np.log(values))` (main.py lines 132, 267, 423):
one value per consecutive pair of levels, in order. -/
def logReturns (rlog : α → α) (values : List α) : List α :=
  (values.zip values.tail).map (fun p => 100 * (rlog p.2 - rlog p.1))

/-- Embeds `np.mean` on a one-dimensional array. -/
def listMean (l : List α) : α := l.sum / (l.length : α)

/-- Embeds `np.std` (population standard deviation) via the sqrt oracle. -/
def listStd (o : NumOracle α) (l : List α) : α :=
  o.sqrt (listMean (l.map (fun x => (x - listMean l) ^ 2)))

/-- Python `l[-1]`: the last element, or IndexError on an empty sequence. -/
def pyLast (l : List α) : Except GarchError α :=
  match l.getLast? with
  | some v => .ok v
  | none => .error .indexError

/-- Python `l[-2]`: the second-to-last element, or IndexError when the
sequence has fewer than two elements. -/
def pyPenult (l : List α) : Except GarchError α :=
  if h : 2 ≤ l.length then .ok (l.get ⟨l.length - 2, by omega⟩)
  else .error .indexError

/-- The `volatility_regimes` dictionary (main.py lines 164-169). -/
structure VolRegimes (α : Type) where
  low : α
  high : α
  current : α
  mean : α

/-- The `params` dictionary of the fit result (main.py lines 143-148 and
184-188): the extracted coefficients plus persistence and half-life. -/
structure GarchParams (α : Type) where
  mu : α
  omega : α
  alpha : α
  beta : α
  persistence : α
  half_life : PyFloat α

/-- The `model_spec` dictionary (main.py lines 178-183). -/
structure ModelSpec where
  p : Nat
  q : Nat
  dist : String
  mean_model : String
  deriving DecidableEq

/-- The dictionary returned by `fit_garch_model` (main.py lines 176-195). -/
structure FitOutput (α : Type) where
  model_spec : ModelSpec
  params : GarchParams α
  conditional_volatility : List α
  volatility_regimes : VolRegimes α
  aic : α
  bic : α
  log_likelihood : α
  interpretation : String

/-- Embeds `generate_interpretation` (main.py lines 198-240).  The
decision structure (which text block is selected by persistence,
half-life and regime comparisons) is kept; the interpolation of
formatted numbers into the narrative template is elided, since the
narrative text is out of the engine's scope. -/
def generate_interpretation (persistence : α) (half_life : PyFloat α)
    (regimes : VolRegimes α) : String :=
  let persistence_text :=
    if persistence > 9 / 10 then "波动率具有极强的持续性，大波动后会持续较长时间"
    else if persistence > 7 / 10 then "波动率有一定持续性，冲击影响约1-2周"
    else "波动率回归较快，市场相对稳定"
  let half_life_text :=
    match half_life with
    | .inf => "波动率不收敛，需要警惕"
    | .fin h =>
      if h > 30 then "冲击影响持久"
      else if h > 14 then "冲击影响约2-4周"
      else "冲击影响较快消退"
  let level_text :=
    if regimes.current > regimes.high then "偏高"
    else if regimes.current < regimes.low then "偏低"
    else "正常"
  persistence_text ++ "\n" ++ half_life_text ++ "\n当前波动率水平: " ++ level_text

/-- Embeds `fit_garch_model` (main.py lines 111-195).  The returns are
computed first, the 100-observation guard checked on their number, and
the fit itself delegated to the `fitter` oracle standing for
`arch_model(returns, ...).fit(disp="off")`.  Only `alpha[1]` and
`beta[1]` are read from the parameter table, exactly as in the source. -/
def fit_garch_model (o : NumOracle α) (fitter : List α → ArchResult α)
    (values : List α) (p q : Nat) (dist mean_model : String) :
    Except GarchError (FitOutput α) :=
  let returns := logReturns o.log values
  if returns.length < 100 then
    .error (.insufficientReturns returns.length)
  else
    let result := fitter returns
    let mu := paramsGet result.params "mu"
    let omega := paramsGet result.params "omega"
    let alpha := paramsGet result.params "alpha[1]"
    let beta := paramsGet result.params "beta[1]"
    let persistence := alpha + beta
    let half_life : PyFloat α :=
      if persistence < 1 then .fin (o.log (1 / 2) / o.log persistence)
      else .inf
    let cond_vol := result.conditional_volatility
    let vol_mean := listMean cond_vol
    let vol_std := listStd o cond_vol
    match pyLast cond_vol with
    | .error e => .error e
    | .ok current =>
      let regimes : VolRegimes α :=
        ⟨vol_mean - vol_std, vol_mean + vol_std, current, vol_mean⟩
      .ok
        { model_spec := ⟨p, q, dist, mean_model⟩
          params := ⟨mu, omega, alpha, beta, persistence, half_life⟩
          conditional_volatility := cond_vol
          volatility_regimes := regimes
          aic := result.aic
          bic := result.bic
          log_likelihood := result.loglikelihood
          interpretation := generate_interpretation persistence half_life regimes }

/-- The body of `AnomalyResponse` (main.py lines 74-83), which is also
the dictionary returned by `detect_anomaly_with_garch` (lines 294-304). -/
structure AnomalyResponse (α : Type) where
  success : Bool
  is_anomaly : Bool
  severity : String
  z_score : α
  conditional_volatility : α
  value_at_risk_95 : α
  explanation : String
  current_value : α
  confidence_level : α

/-- Embeds `detect_anomaly_with_garch` (main.py lines 243-304).  `tq`
is the oracle for `scipy.stats.t.ppf`; note the literal degrees of
freedom 4 at line 277, the `values[-2]` base of the current return at
line 268, and the severity thresholds at lines 281-292.  (Line 267 also
recomputes the log returns into a dead local variable; it is elided
here since nothing reads it.)  The severity and explanation are
assigned by the same three-way case split in the source; the numeric
interpolation of the explanation text is elided. -/
def detect_anomaly_with_garch (o : NumOracle α) (fitter : List α → ArchResult α)
    (tq : α → α → α) (current_value : α) (historical_values : List α)
    (confidence_level : α) : Except GarchError (AnomalyResponse α) :=
  let values := historical_values
  if values.length < 100 then .error .insufficientHistory
  else
    match fit_garch_model o fitter values 1 1 "t" "Constant" with
    | .error e => .error e
    | .ok result =>
      match pyLast result.conditional_volatility with
      | .error e => .error e
      | .ok cond_vol =>
        match pyPenult values with
        | .error e => .error e
        | .ok prev =>
          let current_return := (current_value - prev) / prev * 100
          let z_score := current_return / cond_vol
          let a := 1 - confidence_level
          let var_quantile := tq a 4
          let value_at_risk := |var_quantile * cond_vol|
          let abs_z := |z_score|
          let severity :=
            if abs_z < 2 then "normal"
            else if abs_z < 3 then "warning"
            else "critical"
          let explanation :=
            if abs_z < 2 then "当前利率波动正常，处于条件波动率范围内"
            else if abs_z < 3 then "利率波动偏高，当前波动率高于历史平均"
            else "利率异常波动！当前波动率可能预示流动性问题"
          .ok
            { success := true
              is_anomaly := decide (abs_z > 2)
              severity := severity
              z_score := z_score
              conditional_volatility := cond_vol
              value_at_risk_95 := value_at_risk
              explanation := explanation
              current_value := current_value
              confidence_level := confidence_level }

/-- The `AnomalyRequest` model (main.py lines 68-71). -/
structure AnomalyRequest (α : Type) where
  current_value : α
  historical_values : List α
  confidence_level : α

/-- Embeds the `/anomaly` endpoint `detect_anomaly` (main.py lines
370-408): on success the engine dictionary is returned as-is; any
exception is converted to the fixed neutral failure response of lines
398-408. -/
def detect_anomaly (o : NumOracle α) (fitter : List α → ArchResult α)
    (tq : α → α → α) (req : AnomalyRequest α) : AnomalyResponse α :=
  match detect_anomaly_with_garch o fitter tq req.current_value
      req.historical_values req.confidence_level with
  | .ok r => r
  | .error e =>
    { success := false
      is_anomaly := false
      severity := "normal"
      z_score := 0
      conditional_volatility := 0
      value_at_risk_95 := 0
      explanation := "检测失败: " ++ errMsg e
      current_value := req.current_value
      confidence_level := req.confidence_level }

/-- The `FitRequest` model (main.py lines 44-52). -/
structure FitRequest (α : Type) where
  series_id : String
  values : List α
  p : Nat
  q : Nat
  dist : String
  mean_model : String

/-- The `FitResponse` model (main.py lines 55-65); `model_spec = none`
models the empty dictionary of the failure branch. -/
structure FitResponse (α : Type) where
  success : Bool
  series_id : String
  model_spec : Option ModelSpec
  params : Option (GarchParams α)
  interpretation : Option String
  conditional_volatility : List α
  volatility_regimes : Option (VolRegimes α)
  aic : Option α
  bic : Option α
  error : Option String

/-- Embeds the `/fit` endpoint `fit_model` (main.py lines 321-367). -/
def fit_model (o : NumOracle α) (fitter : List α → ArchResult α)
    (req : FitRequest α) : FitResponse α :=
  match fit_garch_model o fitter req.values req.p req.q req.dist req.mean_model with
  | .ok r =>
    { success := true
      series_id := req.series_id
      model_spec := some r.model_spec
      params := some r.params
      interpretation := some r.interpretation
      conditional_volatility := r.conditional_volatility
      volatility_regimes := some r.volatility_regimes
      aic := some r.aic
      bic := some r.bic
      error := none }
  | .error e =>
    { success := false
      series_id := req.series_id
      model_spec := none
      params := none
      interpretation := none
      conditional_volatility := []
      volatility_regimes := none
      aic := none
      bic := none
      error := some (errMsg e) }

/-- The `ForecastRequest` model (main.py lines 86-88). -/
structure ForecastRequest (α : Type) where
  values : List α
  horizon : Nat

/-- The `confidence_intervals` dictionary (main.py lines 455-458). -/
structure ConfidenceIntervals (α : Type) where
  lower : List α
  upper : List α

/-- The `ForecastResponse` model (main.py lines 91-98). -/
structure ForecastResponse (α : Type) where
  success : Bool
  volatility_forecast : List α
  annualized_volatility : List α
  variance_forecast : List α
  confidence_intervals : Option (ConfidenceIntervals α)
  interpretation : Option String
  error : Option String

/-- Embeds the `/forecast` endpoint `forecast_volatility` (main.py lines
411-470).  The returns are computed and handed directly to the
`archForecast` oracle, which stands for the whole library sequence
`arch_model(returns, vol="GARCH", p=1, q=1, dist="t").fit(disp="off")
.forecast(horizon).variance.iloc[-1].values` and may fail with an
arbitrary library exception message.  Note that, unlike
`fit_garch_model`, the source performs no 100-return minimum check
here.  The narrative interpretation text is elided. -/
def forecast_volatility (o : NumOracle α)
    (archForecast : List α → Nat → Except String (List α))
    (req : ForecastRequest α) : ForecastResponse α :=
  let returns := logReturns o.log req.values
  match archForecast returns req.horizon with
  | .error e =>
    { success := false
      volatility_forecast := []
      annualized_volatility := []
      variance_forecast := []
      confidence_intervals := none
      interpretation := none
      error := some e }
  | .ok variance_forecast =>
    let volatility_forecast := variance_forecast.map o.sqrt
    let annualized := volatility_forecast.map (fun v => v * o.sqrt 252)
    let std_error := volatility_forecast.map (fun v => v / o.sqrt (returns.length : α))
    let lower := (volatility_forecast.zip std_error).map (fun p => p.1 - 49 / 25 * p.2)
    let upper := (volatility_forecast.zip std_error).map (fun p => p.1 + 49 / 25 * p.2)
    { success := true
      volatility_forecast := volatility_forecast
      annualized_volatility := annualized
      variance_forecast := variance_forecast
      confidence_intervals := some ⟨lower, upper⟩
      interpretation := some "波动率预测结果"
      error := none }

/-- A JSON value, used to embed the raw dictionaries returned by the
`/compare` endpoint. -/
inductive JVal (α : Type) where
  | num (x : α)
  | str (s : String)
  | bool (b : Bool)
  | obj (fields : List (String × JVal α))

/-- Embeds the `/compare` endpoint `compare_methods`
(main.py lines 473-519).  The comma-separated query string is modelled
as the already-parsed list of levels; `vals[-1]` on an empty list is the
first possible exception.  On any exception the endpoint returns the
bare dictionary with a single "error" key (line 519) — with no
"success" key. -/
def compare_methods (o : NumOracle α) (fitter : List α → ArchResult α)
    (tq : α → α → α) (series_id : String) (vals : List α) :
    List (String × JVal α) :=
  match vals.getLast? with
  | none => [("error", .str "list index out of range")]
  | some current_value =>
    let historical := vals.dropLast
    let z_mean := listMean historical
    let z_std := listStd o historical
    let z_score := (current_value - z_mean) / z_std
    match detect_anomaly_with_garch o fitter tq current_value historical (95 / 100) with
    | .error e => [("error", .str (errMsg e))]
    | .ok g =>
      [("series_id", .str series_id),
       ("current_value", .num current_value),
       ("methods", .obj
         [("zscore", .obj
            [("mean", .num z_mean),
             ("std", .num z_std),
             ("z_score", .num z_score),
             ("is_anomaly", .bool (decide (|z_score| > 2))),
             ("assumption", .str "波动率恒定")]),
          ("garch", .obj
            [("conditional_volatility", .num g.conditional_volatility),
             ("z_score", .num g.z_score),
             ("is_anomaly", .bool g.is_anomaly),
             ("assumption", .str "时变波动率")])]),
       ("comparison", .obj
         [("zscore_threshold", .num 2),
          ("garch_threshold", .num 2),
          ("difference", .str "GARCH 在危机时期会自动提高波动率阈值，减少误报")])]

/-- Spec-side definition, for comparison with the code's persistence:
the spec states `persistence = Σalpha + Σbeta` over ALL coefficients
`alpha[1..q]` and `beta[1..p]` of the fitted model. -/
def specPersistence (p q : Nat) (ps : List (String × α)) : α :=
  ((List.range q).map (fun i => paramsGet ps ("alpha[" ++ toString (i + 1) ++ "]"))).sum +
  ((List.range p).map (fun j => paramsGet ps ("beta[" ++ toString (j + 1) ++ "]"))).sum

end Garch

namespace Garch

variable {α : Type} [LinearOrderedField α]

/-! ## Concrete instantiations used by witnesses and counterexamples -/

/-- Rational-valued oracle whose log and sqrt are identically zero; every
theorem below quantifies over the oracle, so witnesses may pick any. -/
def qOracle : NumOracle ℚ := ⟨fun _ => 0, fun _ => 0⟩

/-- A fixed library-fit result: a GARCH(1,1) parameter table and a
one-point conditional-volatility series ending at 5. -/
def wArch : ArchResult ℚ :=
  ⟨[("mu", 0), ("omega", 1 / 100), ("alpha[1]", 1 / 10), ("beta[1]", 3 / 10)], [5], 0, 0, 0⟩

/-- A fitter oracle that always returns `wArch`. -/
def wFitter : List ℚ → ArchResult ℚ := fun _ => wArch

/-- A fitter oracle whose conditional-volatility series is empty. -/
def emptyFitter : List ℚ → ArchResult ℚ := fun _ => ⟨[], [], 0, 0, 0⟩

/-- A t-quantile oracle returning the constant -2. -/
def wTq : ℚ → ℚ → ℚ := fun _ _ => -2

/-- 101 levels: one hundred 1s followed by a single 2, so the last level
is 2 and the second-to-last is 1. -/
def c1Vals : List ℚ := List.replicate 100 1 ++ [2]

/-- Exactly 100 levels, which yield only 99 returns. -/
def vals100 : List ℚ := List.replicate 100 1

/-- A GARCH(2,2) parameter table in which the second-order coefficients
`alpha[2]` and `beta[2]` are nonzero. -/
def c2Params : List (String × ℚ) :=
  [("mu", 0), ("omega", 1 / 100), ("alpha[1]", 1 / 10), ("alpha[2]", 1 / 5),
   ("beta[1]", 3 / 10), ("beta[2]", 2 / 5)]

/-- A fitter oracle that always returns the GARCH(2,2) table `c2Params`. -/
def c2Fitter : List ℚ → ArchResult ℚ := fun _ => ⟨c2Params, [5], 0, 0, 0⟩

/-- A forecast-library oracle that always fails. -/
def failFc : List ℚ → Nat → Except String (List ℚ) := fun _ _ => .error "优化失败"

/-- A forecast-library oracle that always returns a fixed variance row. -/
def okFc : List ℚ → Nat → Except String (List ℚ) := fun _ _ => .ok [1, 1, 1, 1, 1]

/-- Extract the payload of a successful `Except`, with a fallback for the
error case. -/
def exOk {ε β : Type} (fb : β) (x : Except ε β) : β :=
  match x with
  | .ok v => v
  | .error _ => fb

/-- Fallback anomaly response used only by `exOk` extractions. -/
def anomalyFallback : AnomalyResponse ℚ := ⟨false, false, "", 0, 0, 0, "", 0, 0⟩

/-- Fallback fit output used only by `exOk` extractions. -/
def fitFallback : FitOutput ℚ :=
  ⟨⟨1, 1, "t", "Constant"⟩, ⟨0, 0, 0, 0, 0, .inf⟩, [], ⟨0, 0, 0, 0⟩, 0, 0, 0, ""⟩

/-- The concrete anomaly run shared by several witnesses: current value 2
against the 101-point history `c1Vals` whose last level is also 2. -/
def c7run : AnomalyResponse ℚ :=
  exOk anomalyFallback (detect_anomaly_with_garch qOracle wFitter wTq 2 c1Vals (95 / 100))

/-- The concrete fit underlying `c7run`. -/
def c6fit : FitOutput ℚ :=
  exOk fitFallback (fit_garch_model qOracle wFitter c1Vals 1 1 "t" "Constant")

/-! ## Helper lemmas -/

theorem exOk_ok {ε β : Type} (fb : β) (x : Except ε β) (h : x.isOk = true) :
    x = .ok (exOk fb x) := by
  cases x with
  | ok v => rfl
  | error e => simp [Except.isOk, Except.toBool] at h

theorem logReturns_length (rlog : α → α) (values : List α) :
    (logReturns rlog values).length = values.length - 1 := by
  simp only [logReturns, List.length_map, List.length_zip, List.length_tail]
  omega

theorem logReturns_cons_cons (rlog : α → α) (a b : α) (t : List α) :
    logReturns rlog (a :: b :: t) =
      100 * (rlog b - rlog a) :: logReturns rlog (b :: t) := rfl

theorem logReturns_getD (rlog : α → α) (values : List α) (i : Nat)
    (h : i + 1 < values.length) :
    (logReturns rlog values).getD i 0 =
      100 * (rlog (values.getD (i + 1) 0) - rlog (values.getD i 0)) := by
  induction values generalizing i with
  | nil => simp at h
  | cons a t ih =>
    cases t with
    | nil => simp at h
    | cons b t2 =>
      cases i with
      | zero => simp [logReturns_cons_cons]
      | succ j =>
        rw [logReturns_cons_cons]
        simp only [List.getD_cons_succ]
        exact ih j (by simpa using h)

set_option linter.unusedSectionVars false
set_option linter.unusedVariables false

theorem pyLast_error_eq (l : List α) (e : GarchError) (h : pyLast l = .error e) :
    e = .indexError := by
  unfold pyLast at h
  split at h
  · simp at h
  · injection h with h1
    exact h1.symm

theorem fit_insufficient_of_short (o : NumOracle α) (fitter : List α → ArchResult α)
    (values : List α) (p q : Nat) (dist mm : String)
    (h : (logReturns o.log values).length < 100) :
    fit_garch_model o fitter values p q dist mm =
      .error (.insufficientReturns (logReturns o.log values).length) := by
  unfold fit_garch_model
  simp [h]

theorem fit_error_elim (o : NumOracle α) (fitter : List α → ArchResult α)
    (values : List α) (p q : Nat) (dist mm : String) (e : GarchError)
    (hlen : ¬ (logReturns o.log values).length < 100)
    (h : fit_garch_model o fitter values p q dist mm = .error e) :
    e = .indexError := by
  unfold fit_garch_model at h
  simp only [hlen, if_false] at h
  split at h
  · rename_i e2 heq
    injection h with h1
    exact h1 ▸ pyLast_error_eq _ _ heq
  · simp at h

/-! ## Claim theorems -/

/-- Claim C5: fitting fails with the insufficient-data error if and only
if the input yields fewer than 100 returns; the return series always has
exactly one value fewer than the level series, so a series of 101 levels
(100 returns) passes the data-sufficiency check and one of 100 levels
(99 returns) is rejected. -/
theorem c5_fit_data_threshold (o : NumOracle ℚ) (fitter : List ℚ → ArchResult ℚ)
    (values : List ℚ) (p q : Nat) (dist mm : String) :
    ((logReturns o.log values).length = values.length - 1) ∧
    (fit_garch_model o fitter values p q dist mm =
        .error (.insufficientReturns (values.length - 1)) ↔
      values.length - 1 < 100) ∧
    (∀ e, fit_garch_model o fitter values p q dist mm = .error e →
      e.isInsufficientData = true → values.length - 1 < 100) := by
  have hlen := logReturns_length o.log values
  refine ⟨hlen, ⟨?_, ?_⟩, ?_⟩
  · intro h
    by_contra hge
    have hnot : ¬ (logReturns o.log values).length < 100 := by omega
    have := fit_error_elim o fitter values p q dist mm _ hnot h
    simp at this
  · intro h
    have h2 : (logReturns o.log values).length < 100 := by omega
    have := fit_insufficient_of_short o fitter values p q dist mm h2
    rw [this, hlen]
  · intro e he hins
    by_contra hge
    have hnot : ¬ (logReturns o.log values).length < 100 := by omega
    have := fit_error_elim o fitter values p q dist mm e hnot he
    rw [this] at hins
    simp [GarchError.isInsufficientData] at hins

/-- Witness for C5 at concrete inputs: 100 levels (99 returns) are
rejected with the insufficient-data error naming 99 observations, and
101 levels (100 returns) are not rejected by the data-sufficiency
check. -/
theorem c5_fit_data_threshold_witness :
    fit_garch_model qOracle wFitter vals100 1 1 "t" "Constant" =
      .error (.insufficientReturns 99) ∧
    ¬ (fit_garch_model qOracle wFitter c1Vals 1 1 "t" "Constant" =
      .error (.insufficientReturns 100)) := by
  constructor
  · have h := (c5_fit_data_threshold qOracle wFitter vals100 1 1 "t" "Constant").2.1.mpr
      (by simp [vals100])
    simpa [vals100] using h
  · intro h
    have h2 := (c5_fit_data_threshold qOracle wFitter c1Vals 1 1 "t" "Constant").2.1.mp
      (by simpa [c1Vals] using h)
    simp [c1Vals] at h2

/-- Claim C4 (amended): the anomaly scorer raises an insufficient-data
failure exactly when `historical_values` has fewer than 101 points: its
own guard rejects fewer than 100 points, and a history of exactly 100
points passes that guard but is rejected by the fitting guard, since 100
levels yield only 99 returns; with at least 101 points no
insufficient-data error can arise. -/
theorem c4_anomaly_data_threshold (o : NumOracle ℚ) (fitter : List ℚ → ArchResult ℚ)
    (tq : ℚ → ℚ → ℚ) (cv : ℚ) (vals : List ℚ) (conf : ℚ) :
    (vals.length < 100 →
      detect_anomaly_with_garch o fitter tq cv vals conf = .error .insufficientHistory) ∧
    (vals.length = 100 →
      detect_anomaly_with_garch o fitter tq cv vals conf =
        .error (.insufficientReturns 99)) ∧
    (101 ≤ vals.length → ∀ e,
      detect_anomaly_with_garch o fitter tq cv vals conf = .error e →
      e.isInsufficientData = false) := by
  refine ⟨?_, ?_, ?_⟩
  · intro h
    unfold detect_anomaly_with_garch
    simp [h]
  · intro h
    have hshort : (logReturns o.log vals).length < 100 := by
      rw [logReturns_length]; omega
    have hfit := fit_insufficient_of_short o fitter vals 1 1 "t" "Constant" hshort
    unfold detect_anomaly_with_garch
    have hnot : ¬ vals.length < 100 := by omega
    simp only [hnot, if_false]
    rw [hfit]
    rw [logReturns_length]
    rw [h]
  · intro hge e he
    have hnot : ¬ vals.length < 100 := by omega
    unfold detect_anomaly_with_garch at he
    simp only [hnot, if_false] at he
    split at he
    · rename_i e2 heq
      have hnotshort : ¬ (logReturns o.log vals).length < 100 := by
        rw [logReturns_length]; omega
      have := fit_error_elim o fitter vals 1 1 "t" "Constant" e2 hnotshort heq
      injection he with h1
      rw [h1.symm, this]
      rfl
    · rename_i result heq
      split at he
      · rename_i e3 heq3
        have := pyLast_error_eq _ _ heq3
        injection he with h1
        rw [h1.symm, this]
        rfl
      · rename_i condv heq3
        split at he
        · rename_i e4 heq4
          unfold pyPenult at heq4
          split at heq4
          · simp at heq4
          · injection heq4 with h2
            injection he with h1
            rw [h1.symm, h2.symm]
            rfl
        · simp at he

/-- Witness for C4 at concrete inputs in all three ranges: a 3-point
history trips the scorer's own guard, a 100-point history trips the
inner fitting guard, and with a 101-point history and a degenerate
library fit the only possible failure is an index error, which is not an
insufficient-data failure. -/
theorem c4_anomaly_data_threshold_witness :
    detect_anomaly_with_garch qOracle wFitter wTq 2 [1, 2, 3] (95 / 100) =
      .error .insufficientHistory ∧
    detect_anomaly_with_garch qOracle wFitter wTq 2 vals100 (95 / 100) =
      .error (.insufficientReturns 99) ∧
    GarchError.isInsufficientData .indexError = false := by
  refine ⟨?_, ?_, ?_⟩
  · exact (c4_anomaly_data_threshold qOracle wFitter wTq 2 [1, 2, 3] (95 / 100)).1
      (by simp)
  · exact (c4_anomaly_data_threshold qOracle wFitter wTq 2 vals100 (95 / 100)).2.1
      (by simp [vals100])
  · exact (c4_anomaly_data_threshold qOracle emptyFitter wTq 2 c1Vals (95 / 100)).2.2
      (by simp [c1Vals]) .indexError (by rfl)

/-- Counterexample to C4 as stated: a request with exactly 100
historical points does NOT proceed to scoring — it fails with the
insufficient-data error raised by the inner fit on its 99 returns. -/
theorem c4_counterexample :
    vals100.length = 100 ∧
    detect_anomaly_with_garch qOracle wFitter wTq 2 vals100 (95 / 100) =
      .error (.insufficientReturns 99) ∧
    GarchError.isInsufficientData (.insufficientReturns 99) = true := by
  refine ⟨by simp [vals100], by rfl, rfl⟩

/-- Claim C2 (amended): for every successful fit, the reported
persistence is `alpha[1] + beta[1]` — only the first ARCH and the first
GARCH coefficient of the library's parameter table — regardless of the
requested orders p and q; higher-order coefficients do not contribute. -/
theorem c2_persistence_first_coeffs (o : NumOracle ℚ) (fitter : List ℚ → ArchResult ℚ)
    (values : List ℚ) (p q : Nat) (dist mm : String) (r : FitOutput ℚ)
    (h : fit_garch_model o fitter values p q dist mm = .ok r) :
    r.params.persistence =
      paramsGet (fitter (logReturns o.log values)).params "alpha[1]" +
      paramsGet (fitter (logReturns o.log values)).params "beta[1]" := by
  simp only [fit_garch_model] at h
  split at h
  · simp at h
  · split at h
    · simp at h
    · injection h with h1
      rw [h1.symm]

/-- Witness for C2's amended theorem on a concrete GARCH(2,2) fit. -/
theorem c2_persistence_first_coeffs_witness :
    (exOk fitFallback (fit_garch_model qOracle c2Fitter c1Vals 2 2 "t" "Constant")).params.persistence =
      paramsGet (c2Fitter (logReturns qOracle.log c1Vals)).params "alpha[1]" +
      paramsGet (c2Fitter (logReturns qOracle.log c1Vals)).params "beta[1]" := by
  refine c2_persistence_first_coeffs qOracle c2Fitter c1Vals 2 2 "t" "Constant" _
    (exOk_ok fitFallback _ ?_)
  simp [fit_garch_model, logReturns, c1Vals, pyLast, Except.isOk, Except.toBool,
    c2Fitter, c2Params, paramsGet, List.lookup, listMean, listStd, qOracle,
    generate_interpretation, List.getLast?_append]

/-- Counterexample to C2 as stated: on a GARCH(2,2) fit whose parameter
table carries nonzero `alpha[2]` and `beta[2]`, the reported persistence
is 1/10 + 3/10 = 2/5, while the sum of ALL alpha and beta coefficients
prescribed by the spec is 1. -/
theorem c2_counterexample :
    (fit_garch_model qOracle c2Fitter c1Vals 2 2 "t" "Constant").map
        (fun r => r.params.persistence) = .ok (2 / 5) ∧
    specPersistence 2 2 c2Params = 1 ∧ ((2 : ℚ) / 5) ≠ (1 : ℚ) := by
  refine ⟨?_, ?_, by norm_num⟩
  · simp [fit_garch_model, logReturns, c1Vals, pyLast, Except.map, paramsGet,
      c2Fitter, c2Params, qOracle, listMean, listStd, generate_interpretation,
      List.lookup, List.getLast?_append]
    norm_num
  · have h2 : List.range 2 = [0, 1] := rfl
    have ha1 : ("alpha[" ++ toString (0 + 1) ++ "]") = "alpha[1]" := rfl
    have ha2 : ("alpha[" ++ toString (1 + 1) ++ "]") = "alpha[2]" := rfl
    have hb1 : ("beta[" ++ toString (0 + 1) ++ "]") = "beta[1]" := rfl
    have hb2 : ("beta[" ++ toString (1 + 1) ++ "]") = "beta[2]" := rfl
    simp [specPersistence, h2, ha1, ha2, hb1, hb2, paramsGet, c2Params, List.lookup]
    norm_num

/-- Claim C1 (divergence witness): with the current value 2 equal to the
LAST historical level of `c1Vals`, the code computes the current return
against the second-to-last level `values[-2] = 1`, yielding z-score
(2-1)/1*100/5 = 20 — not 0 — and severity "critical" — not "normal". -/
theorem c1_code_divergence :
    c1Vals.getLast? = some 2 ∧
    (detect_anomaly_with_garch qOracle wFitter wTq 2 c1Vals (95 / 100)).map
        (fun r => (r.z_score, r.severity)) = .ok (20, "critical") ∧
    (20 : ℚ) ≠ 0 ∧ "critical" ≠ "normal" := by
  refine ⟨by simp [c1Vals, List.getLast?_append], ?_, by norm_num, by decide⟩
  norm_num [detect_anomaly_with_garch, fit_garch_model, logReturns, paramsGet,
    listMean, listStd, pyLast, pyPenult, qOracle, wArch, wFitter, wTq, c1Vals,
    generate_interpretation, Except.map, List.getLast?_append,
    List.getElem_append_left, List.getElem_replicate]

theorem severity_spec (z : ℚ) :
    (((if |z| < 2 then "normal" else if |z| < 3 then "warning" else "critical") = "normal")
      ↔ |z| < 2) ∧
    (((if |z| < 2 then "normal" else if |z| < 3 then "warning" else "critical") = "warning")
      ↔ 2 ≤ |z| ∧ |z| < 3) ∧
    (((if |z| < 2 then "normal" else if |z| < 3 then "warning" else "critical") = "critical")
      ↔ 3 ≤ |z|) ∧
    ((decide (|z| > 2) = true) ↔ 2 < |z|) := by
  by_cases h2 : |z| < 2 <;> by_cases h3 : |z| < 3 <;>
    simp [h2, h3] <;> linarith

/-- Claim C7: for every successful anomaly run, severity is "normal" iff
the absolute z-score is below 2, "warning" iff it lies in [2, 3),
"critical" iff it is at least 3, and the anomaly flag is set iff the
absolute z-score strictly exceeds 2 (so at exactly 2 the severity is
"warning" while the flag is false). -/
theorem c7_severity_thresholds (o : NumOracle ℚ) (fitter : List ℚ → ArchResult ℚ)
    (tq : ℚ → ℚ → ℚ) (cv : ℚ) (vals : List ℚ) (conf : ℚ) (r : AnomalyResponse ℚ)
    (h : detect_anomaly_with_garch o fitter tq cv vals conf = .ok r) :
    ((r.severity = "normal") ↔ |r.z_score| < 2) ∧
    ((r.severity = "warning") ↔ 2 ≤ |r.z_score| ∧ |r.z_score| < 3) ∧
    ((r.severity = "critical") ↔ 3 ≤ |r.z_score|) ∧
    ((r.is_anomaly = true) ↔ 2 < |r.z_score|) := by
  simp only [detect_anomaly_with_garch] at h
  split at h
  · simp at h
  · split at h
    · simp at h
    · split at h
      · simp at h
      · split at h
        · simp at h
        · injection h with h1
          subst h1
          exact severity_spec _

/-- The concrete anomaly run `c7run` is the successful result of the
scorer on `c1Vals`. -/
theorem c7run_ok :
    detect_anomaly_with_garch qOracle wFitter wTq 2 c1Vals (95 / 100) = .ok c7run := by
  refine exOk_ok anomalyFallback _ ?_
  simp [detect_anomaly_with_garch, fit_garch_model, logReturns, paramsGet,
    listMean, listStd, pyLast, pyPenult, qOracle, wArch, wFitter, wTq, c1Vals,
    generate_interpretation, Except.isOk, Except.toBool, List.lookup,
    List.getLast?_append, List.getElem_append_left, List.getElem_replicate]

/-- The conditional volatility reported by the concrete run is 5. -/
theorem c7run_condvol : c7run.conditional_volatility = 5 := by
  norm_num [c7run, exOk, detect_anomaly_with_garch, fit_garch_model, logReturns,
    paramsGet, listMean, listStd, pyLast, pyPenult, qOracle, wArch, wFitter, wTq,
    c1Vals, generate_interpretation, List.getLast?_append,
    List.getElem_append_left, List.getElem_replicate]

/-- Witness for C7 on the concrete run `c7run`. -/
theorem c7_severity_thresholds_witness :
    ((c7run.severity = "normal") ↔ |c7run.z_score| < 2) ∧
    ((c7run.severity = "warning") ↔ 2 ≤ |c7run.z_score| ∧ |c7run.z_score| < 3) ∧
    ((c7run.severity = "critical") ↔ 3 ≤ |c7run.z_score|) ∧
    ((c7run.is_anomaly = true) ↔ 2 < |c7run.z_score|) :=
  c7_severity_thresholds qOracle wFitter wTq 2 c1Vals (95 / 100) c7run c7run_ok

/-- Claim C6: for every successful anomaly run with confidence level in
[0.9, 0.99] and a nonnegative conditional volatility, the reported
Value-at-Risk is the absolute t-quantile at probability 1 − confidence
with the degrees of freedom fixed at the literal 4 — regardless of the
estimated distribution parameters — multiplied by the last conditional
volatility of the fitted model. -/
theorem c6_value_at_risk (o : NumOracle ℚ) (fitter : List ℚ → ArchResult ℚ)
    (tq : ℚ → ℚ → ℚ) (cv : ℚ) (vals : List ℚ) (conf : ℚ) (r : AnomalyResponse ℚ)
    (fitRes : FitOutput ℚ)
    (hok : detect_anomaly_with_garch o fitter tq cv vals conf = .ok r)
    (hfit : fit_garch_model o fitter vals 1 1 "t" "Constant" = .ok fitRes)
    (hvol : 0 ≤ r.conditional_volatility)
    (hc1 : 9 / 10 ≤ conf) (hc2 : conf ≤ 99 / 100) :
    r.value_at_risk_95 = |tq (1 - conf) 4| * r.conditional_volatility ∧
    pyLast fitRes.conditional_volatility = .ok r.conditional_volatility := by
  simp only [detect_anomaly_with_garch] at hok
  split at hok
  · simp at hok
  · split at hok
    · simp at hok
    · rename_i result heq
      rw [hfit] at heq
      injection heq with he2
      subst he2
      split at hok
      · simp at hok
      · rename_i condv heq2
        split at hok
        · simp at hok
        · rename_i prev heq3
          injection hok with h1
          subst h1
          exact ⟨abs_mul (tq (1 - conf) 4) condv ▸ by rw [abs_of_nonneg hvol], heq2⟩

/-- The concrete fit `c6fit` is the successful result of fitting
`c1Vals`. -/
theorem c6fit_ok :
    fit_garch_model qOracle wFitter c1Vals 1 1 "t" "Constant" = .ok c6fit := by
  refine exOk_ok fitFallback _ ?_
  simp [fit_garch_model, logReturns, paramsGet, listMean, listStd, pyLast,
    qOracle, wArch, wFitter, c1Vals, generate_interpretation, Except.isOk,
    Except.toBool, List.lookup, List.getLast?_append]

/-- Witness for C6 on the concrete run `c7run` over the fit `c6fit`. -/
theorem c6_value_at_risk_witness :
    c7run.value_at_risk_95 = |wTq (1 - 95 / 100) 4| * c7run.conditional_volatility ∧
    pyLast c6fit.conditional_volatility = .ok c7run.conditional_volatility :=
  c6_value_at_risk qOracle wFitter wTq 2 c1Vals (95 / 100) c7run c6fit c7run_ok c6fit_ok
    (by rw [c7run_condvol]; norm_num) (by norm_num) (by norm_num)

/-- Claim C10: whenever the scoring pipeline raises any internal error,
the /anomaly endpoint returns success = false together with the fixed
neutral values is_anomaly = false, severity = "normal", z_score = 0,
conditional_volatility = 0 and value_at_risk_95 = 0, with the error
message carried in the explanation — the same severity and flag as a
genuinely normal observation. -/
theorem c10_neutral_failure (o : NumOracle ℚ) (fitter : List ℚ → ArchResult ℚ)
    (tq : ℚ → ℚ → ℚ) (req : AnomalyRequest ℚ) (e : GarchError)
    (h : detect_anomaly_with_garch o fitter tq req.current_value
      req.historical_values req.confidence_level = .error e) :
    detect_anomaly o fitter tq req =
      { success := false, is_anomaly := false, severity := "normal", z_score := 0,
        conditional_volatility := 0, value_at_risk_95 := 0,
        explanation := "检测失败: " ++ errMsg e,
        current_value := req.current_value,
        confidence_level := req.confidence_level } := by
  unfold detect_anomaly
  rw [h]

/-- Witness for C10 on a 3-point history, which trips the scorer's
100-point guard. -/
theorem c10_neutral_failure_witness :
    detect_anomaly qOracle wFitter wTq ⟨2, [1, 2, 3], 95 / 100⟩ =
      { success := false, is_anomaly := false, severity := "normal", z_score := 0,
        conditional_volatility := 0, value_at_risk_95 := 0,
        explanation := "检测失败: " ++ errMsg .insufficientHistory,
        current_value := 2, confidence_level := 95 / 100 } :=
  c10_neutral_failure qOracle wFitter wTq ⟨2, [1, 2, 3], 95 / 100⟩
    .insufficientHistory rfl

/-- Claim C8 (amended): engine failures of /fit, /anomaly and /forecast
are reported inside the response body with success = false, a
human-readable error message, and no numeric results (empty lists,
none-valued fields, or the anomaly endpoint's fixed neutral zeros) —
but the /compare endpoint reports failures as a body holding ONLY an
"error" message, with no success flag at all. -/
theorem c8_failure_envelopes :
    (∀ (o : NumOracle ℚ) (fitter : List ℚ → ArchResult ℚ) (req : FitRequest ℚ)
        (e : GarchError),
      fit_garch_model o fitter req.values req.p req.q req.dist req.mean_model =
          .error e →
        (fit_model o fitter req).success = false ∧
        (fit_model o fitter req).error = some (errMsg e) ∧
        (fit_model o fitter req).params = none ∧
        (fit_model o fitter req).conditional_volatility = [] ∧
        (fit_model o fitter req).aic = none ∧
        (fit_model o fitter req).bic = none) ∧
    (∀ (o : NumOracle ℚ) (fitter : List ℚ → ArchResult ℚ) (tq : ℚ → ℚ → ℚ)
        (req : AnomalyRequest ℚ) (e : GarchError),
      detect_anomaly_with_garch o fitter tq req.current_value
          req.historical_values req.confidence_level = .error e →
        (detect_anomaly o fitter tq req).success = false ∧
        (detect_anomaly o fitter tq req).explanation = "检测失败: " ++ errMsg e ∧
        (detect_anomaly o fitter tq req).z_score = 0 ∧
        (detect_anomaly o fitter tq req).conditional_volatility = 0 ∧
        (detect_anomaly o fitter tq req).value_at_risk_95 = 0) ∧
    (∀ (o : NumOracle ℚ) (fc : List ℚ → Nat → Except String (List ℚ))
        (req : ForecastRequest ℚ) (msg : String),
      fc (logReturns o.log req.values) req.horizon = .error msg →
        (forecast_volatility o fc req).success = false ∧
        (forecast_volatility o fc req).error = some msg ∧
        (forecast_volatility o fc req).volatility_forecast = [] ∧
        (forecast_volatility o fc req).annualized_volatility = [] ∧
        (forecast_volatility o fc req).variance_forecast = []) ∧
    (∀ (o : NumOracle ℚ) (fitter : List ℚ → ArchResult ℚ) (tq : ℚ → ℚ → ℚ)
        (sid : String) (vals : List ℚ) (cur : ℚ) (e : GarchError),
      vals.getLast? = some cur →
      detect_anomaly_with_garch o fitter tq cur vals.dropLast (95 / 100) =
          .error e →
        compare_methods o fitter tq sid vals = [("error", .str (errMsg e))] ∧
        (compare_methods o fitter tq sid vals).lookup "success" = none) := by
  refine ⟨?_, ?_, ?_, ?_⟩
  · intro o fitter req e h
    unfold fit_model
    rw [h]
    exact ⟨rfl, rfl, rfl, rfl, rfl, rfl⟩
  · intro o fitter tq req e h
    unfold detect_anomaly
    rw [h]
    exact ⟨rfl, rfl, rfl, rfl, rfl⟩
  · intro o fc req msg h
    simp only [forecast_volatility]
    rw [h]
    exact ⟨rfl, rfl, rfl, rfl, rfl⟩
  · intro o fitter tq sid vals cur e hlast h
    simp only [compare_methods, hlast]
    rw [h]
    exact ⟨rfl, by simp [List.lookup]⟩

/-- Witness for C8 with a concrete engine failure behind each of the
four endpoints. -/
theorem c8_failure_envelopes_witness :
    ((fit_model qOracle wFitter ⟨"SOFR", [1, 2, 3], 1, 1, "t", "Constant"⟩).success = false ∧
      (fit_model qOracle wFitter ⟨"SOFR", [1, 2, 3], 1, 1, "t", "Constant"⟩).error =
        some (errMsg (.insufficientReturns 2)) ∧
      (fit_model qOracle wFitter ⟨"SOFR", [1, 2, 3], 1, 1, "t", "Constant"⟩).params = none ∧
      (fit_model qOracle wFitter ⟨"SOFR", [1, 2, 3], 1, 1, "t", "Constant"⟩).conditional_volatility = [] ∧
      (fit_model qOracle wFitter ⟨"SOFR", [1, 2, 3], 1, 1, "t", "Constant"⟩).aic = none ∧
      (fit_model qOracle wFitter ⟨"SOFR", [1, 2, 3], 1, 1, "t", "Constant"⟩).bic = none) ∧
    ((detect_anomaly qOracle wFitter wTq ⟨2, [1, 2, 3], 95 / 100⟩).success = false ∧
      (detect_anomaly qOracle wFitter wTq ⟨2, [1, 2, 3], 95 / 100⟩).explanation =
        "检测失败: " ++ errMsg .insufficientHistory ∧
      (detect_anomaly qOracle wFitter wTq ⟨2, [1, 2, 3], 95 / 100⟩).z_score = 0 ∧
      (detect_anomaly qOracle wFitter wTq ⟨2, [1, 2, 3], 95 / 100⟩).conditional_volatility = 0 ∧
      (detect_anomaly qOracle wFitter wTq ⟨2, [1, 2, 3], 95 / 100⟩).value_at_risk_95 = 0) ∧
    ((forecast_volatility qOracle failFc ⟨[1, 2, 3], 5⟩).success = false ∧
      (forecast_volatility qOracle failFc ⟨[1, 2, 3], 5⟩).error = some "优化失败" ∧
      (forecast_volatility qOracle failFc ⟨[1, 2, 3], 5⟩).volatility_forecast = [] ∧
      (forecast_volatility qOracle failFc ⟨[1, 2, 3], 5⟩).annualized_volatility = [] ∧
      (forecast_volatility qOracle failFc ⟨[1, 2, 3], 5⟩).variance_forecast = []) ∧
    (compare_methods qOracle wFitter wTq "SOFR" c1Vals = [("error", .str (errMsg (.insufficientReturns 99)))] ∧
      (compare_methods qOracle wFitter wTq "SOFR" c1Vals).lookup "success" = none) :=
  ⟨c8_failure_envelopes.1 qOracle wFitter ⟨"SOFR", [1, 2, 3], 1, 1, "t", "Constant"⟩
      (.insufficientReturns 2) rfl,
   c8_failure_envelopes.2.1 qOracle wFitter wTq ⟨2, [1, 2, 3], 95 / 100⟩
      .insufficientHistory rfl,
   c8_failure_envelopes.2.2.1 qOracle failFc ⟨[1, 2, 3], 5⟩ "优化失败" rfl,
   c8_failure_envelopes.2.2.2 qOracle wFitter wTq "SOFR" c1Vals 2
      (.insufficientReturns 99) (by simp [c1Vals, List.getLast?_append]) rfl⟩

/-- Counterexample to C8 as stated: a failing /compare request answers
with the bare body holding only an "error" key — there is no
success = false flag anywhere in the response. -/
theorem c8_counterexample :
    compare_methods qOracle wFitter wTq "SOFR" c1Vals =
      [("error", .str (errMsg (.insufficientReturns 99)))] ∧
    (compare_methods qOracle wFitter wTq "SOFR" c1Vals).lookup "success" = none ∧
    (compare_methods qOracle wFitter wTq "SOFR" c1Vals).lookup "error" =
      some (.str (errMsg (.insufficientReturns 99))) := by
  refine ⟨by rfl, by rfl, by rfl⟩

/-- Claim C3 (amended): the /forecast endpoint enforces no 100-return
minimum of its own — the returns are handed to the library whatever
their number, the response succeeds exactly when the library call does,
and any failure message in the response comes from the library call. -/
theorem c3_forecast_no_minimum (o : NumOracle ℚ)
    (fc : List ℚ → Nat → Except String (List ℚ)) (req : ForecastRequest ℚ) :
    ((forecast_volatility o fc req).success = true ↔
      (fc (logReturns o.log req.values) req.horizon).isOk = true) ∧
    (∀ msg, (forecast_volatility o fc req).error = some msg →
      fc (logReturns o.log req.values) req.horizon = .error msg) := by
  unfold forecast_volatility
  rcases hf : fc (logReturns o.log req.values) req.horizon with msg | row
  · simp [hf, Except.isOk, Except.toBool]
  · simp [hf, Except.isOk, Except.toBool]

/-- Witness for C3: a 3-level series yields 2 returns — fewer than 100 —
yet with a succeeding library oracle the forecast succeeds, and with a
failing oracle the only error is the library's own message. -/
theorem c3_forecast_no_minimum_witness :
    (([1, 2, 3] : List ℚ).length - 1 < 100) ∧
    ((forecast_volatility qOracle okFc ⟨[1, 2, 3], 5⟩).success = true ↔
      (okFc (logReturns qOracle.log [1, 2, 3]) 5).isOk = true) ∧
    ((forecast_volatility qOracle failFc ⟨[1, 2, 3], 5⟩).error = some "优化失败" →
      failFc (logReturns qOracle.log [1, 2, 3]) 5 = .error "优化失败") :=
  ⟨by norm_num,
   (c3_forecast_no_minimum qOracle okFc ⟨[1, 2, 3], 5⟩).1,
   (c3_forecast_no_minimum qOracle failFc ⟨[1, 2, 3], 5⟩).2 "优化失败"⟩

/-- Counterexample to C3 as stated: a forecast request whose series
yields only 2 returns does not fail with the insufficient-data error —
with a succeeding library call it succeeds outright, returning
success = true and no error. -/
theorem c3_counterexample :
    (([1, 2, 3] : List ℚ).length - 1 < 100) ∧
    (forecast_volatility qOracle okFc ⟨[1, 2, 3], 5⟩).success = true ∧
    (forecast_volatility qOracle okFc ⟨[1, 2, 3], 5⟩).error = none := by
  refine ⟨by norm_num, by rfl, by rfl⟩

/-- Uniform positive scaling of all levels leaves the log-return
transform unchanged, since log (c·x) − log (c·y) = log x − log y for
positive arguments. -/
theorem logReturns_scale_invariant (values : List ℝ) (c : ℝ)
    (hpos : ∀ x ∈ values, 0 < x) (hc : 0 < c) :
    logReturns Real.log (values.map (fun x => c * x)) = logReturns Real.log values := by
  induction values with
  | nil => rfl
  | cons a t ih =>
    cases t with
    | nil => rfl
    | cons b t2 =>
      have ha : (0 : ℝ) < a := hpos a (by simp)
      have hb : (0 : ℝ) < b := hpos b (by simp)
      have ht : ∀ x ∈ b :: t2, 0 < x := fun x hx => hpos x (List.mem_cons_of_mem a hx)
      simp only [List.map_cons]
      rw [logReturns_cons_cons, logReturns_cons_cons]
      have hmap : (c * b) :: t2.map (fun x => c * x) = (b :: t2).map (fun x => c * x) := by
        simp
      rw [hmap, ih ht]
      congr 1
      rw [Real.log_mul hc.ne' hb.ne', Real.log_mul hc.ne' ha.ne']
      ring

/-- Claim C9: for every series of at least two positive levels, the
return transform yields exactly length − 1 values, each being
100·(ln(level at i+1) − ln(level at i)) in order, and the transform is
invariant under multiplying every level by the same positive constant. -/
theorem c9_return_transform (values : List ℝ) (c : ℝ)
    (hlen : 2 ≤ values.length) (hpos : ∀ x ∈ values, 0 < x) (hc : 0 < c) :
    (logReturns Real.log values).length = values.length - 1 ∧
    (∀ i, i + 1 < values.length →
      (logReturns Real.log values).getD i 0 =
        100 * (Real.log (values.getD (i + 1) 0) - Real.log (values.getD i 0))) ∧
    logReturns Real.log (values.map (fun x => c * x)) = logReturns Real.log values :=
  ⟨logReturns_length Real.log values,
   fun i hi => logReturns_getD Real.log values i hi,
   logReturns_scale_invariant values c hpos hc⟩

/-- Witness for C9 on the positive 3-level series [1, 2, 4] scaled
by 3. -/
theorem c9_return_transform_witness :
    (logReturns Real.log [1, 2, 4]).length = 2 ∧
    (logReturns Real.log [1, 2, 4]).getD 0 0 =
      100 * (Real.log (([1, 2, 4] : List ℝ).getD 1 0) -
        Real.log (([1, 2, 4] : List ℝ).getD 0 0)) ∧
    (logReturns Real.log [1, 2, 4]).getD 1 0 =
      100 * (Real.log (([1, 2, 4] : List ℝ).getD 2 0) -
        Real.log (([1, 2, 4] : List ℝ).getD 1 0)) ∧
    logReturns Real.log (([1, 2, 4] : List ℝ).map (fun x => 3 * x)) =
      logReturns Real.log [1, 2, 4] := by
  have h := c9_return_transform [1, 2, 4] 3 (by norm_num)
    (by intro x hx; simp at hx; rcases hx with h1 | h1 | h1 <;> rw [h1] <;> norm_num)
    (by norm_num)
  exact ⟨h.1, h.2.1 0 (by norm_num), h.2.1 1 (by norm_num), h.2.2⟩

end Garch
